import Mathlib

/-!
Verification of the CheatGuardian signal-analysis and alerting engine.

The definitions below are a shallow embedding of the TypeScript sources:

* `src/utils/detectionUtils.ts` (constants `MAX_HEAD_POSITIONS = 15`,
  `POSITION_TRACKING_INTERVAL = 300`, the `framesSinceFaceDetected` counter,
  `processVideoFrame`, `getDetectionStatus`),
* `src/utils/audioUtils.ts` (`initializeAudio`, `processAudio`,
  `recentNoiseLevel`, `MAX_NOISE_SAMPLES = 20`, `NOISE_THRESHOLD = 0.2`),
* `src/pages/Index.tsx` (the `detectFrame` loop's alert emission, the audio
  status override, and `dismissAlert`).

Modelling conventions:

* JavaScript numbers on the code paths in question hold pixel coordinates,
  normalized volumes and exact decimal literals; they are embedded as `ℚ`
  (the decimal literals `0.2`, `0.1` become `1/5`, `1/10`).
* Timestamps (`Date.now()`) are embedded as `ℕ` milliseconds.  The two
  subtractions the code performs on timestamps are immediately compared
  (`now - last.timestamp > 300` and `now - a.timestamp < 10000`); for every
  pair of operands the truncated `ℕ` subtraction gives the same Boolean as
  the real-number subtraction (a negative difference fails `> 300` and
  passes `< 10000`, just like the truncated value `0`), so the embedding
  agrees with the source on all inputs.
* The comparison `Math.sqrt(dx*dx + dy*dy) > 25` is embedded as
  `25^2 < dx^2 + dy^2`, which is equivalent for the nonnegative radicand
  since squaring is monotone on nonnegative reals.
* The external face detector (`estimateFaces`, including the second pass the
  code makes with a tensor input) is a parameter: its overall outcome is an
  `Except`, `Except.error` standing for a thrown exception that the source
  catches.  A nullable DOM video element is `Option Unit`.  The `predictions`
  field of the TypeScript result (returned only for canvas drawing) is not
  modelled.
* React's `setAlerts(prev => [newAlert, ...prev])` updaters are applied in
  order to the evolving list, while both deduplication tests inside one tick
  read the `alerts` value captured by the closure, as in the source.
-/

/-! ## Constants (detectionUtils.ts and audioUtils.ts) -/

def MAX_HEAD_POSITIONS : ℕ := 15

def HEAD_MOVEMENT_THRESHOLD : ℚ := 25

def FREQUENT_MOVEMENTS_THRESHOLD : ℕ := 3

def POSITION_TRACKING_INTERVAL : ℕ := 300

def FACE_DISAPPEARANCE_THRESHOLD : ℕ := 3

def MAX_NOISE_SAMPLES : ℕ := 20

def NOISE_THRESHOLD : ℚ := 1/5

def ALERT_COOLDOWN : ℕ := 10000

/-! ## Data model -/

/-- A face bounding box as delivered by BlazeFace: `topLeft = [x, y]`,
`bottomRight = [x, y]`.  Field `topLeftX` is `topLeft[0]`, `topLeftY` is
`topLeft[1]`, and so on. -/
structure Face where
  topLeftX : ℚ
  topLeftY : ℚ
  bottomRightX : ℚ
  bottomRightY : ℚ
  deriving DecidableEq, Repr

/-- Entry of `recentHeadPositions` (interface `HeadPosition`). -/
structure HeadPosition where
  x : ℚ
  y : ℚ
  timestamp : ℕ
  deriving DecidableEq, Repr

/-- Result of `processVideoFrame` (without the `predictions` field, which is
only passed through for canvas drawing). -/
structure DetectionResult where
  faceCount : ℕ
  facePresent : Bool
  lookingAway : Bool
  estimatedAttention : ℤ
  deriving DecidableEq, Repr

/-- Result of `processAudio`. -/
structure AudioResult where
  noiseDetected : Bool
  noiseLevel : ℚ
  volumeLevel : ℚ
  deriving DecidableEq, Repr

/-- The module-level mutable state of detectionUtils.ts:
`recentHeadPositions` and `framesSinceFaceDetected`. -/
structure DetectionState where
  recentHeadPositions : List HeadPosition
  framesSinceFaceDetected : ℕ
  deriving DecidableEq, Repr

/-- Both arrays start empty and the counter starts at 0. -/
def initDetectionState : DetectionState :=
  { recentHeadPositions := [], framesSinceFaceDetected := 0 }

/-! ## Sliding-window primitive -/

/-- `arr.push(x); if (arr.length > cap) arr.shift();` — append at the end,
then drop the head if the capacity is exceeded.  Used by both
`recentHeadPositions` (cap 15) and `recentNoiseLevel` (cap 20). -/
def pushBounded {α : Type} (cap : ℕ) (w : List α) (x : α) : List α :=
  if cap < (w ++ [x]).length then (w ++ [x]).tail else w ++ [x]

/-! ## Face position tracker (processVideoFrame) -/

/-- The centroid stored for the primary face, verbatim from the source:
```
const centerX = firstFace.topLeft[0] + (firstFace.bottomRight[0] - firstFace.topLeft[0]) / 2;
const centerY = firstFace.topLeft[1] + (firstFace.bottomRight[0] - firstFace.topLeft[1]) / 2;
```
Note that the `centerY` line reads `bottomRight[0]` (the x-coordinate). -/
def centroid (f : Face) (now : ℕ) : HeadPosition :=
  { x := f.topLeftX + (f.bottomRightX - f.topLeftX) / 2
    y := f.topLeftY + (f.bottomRightX - f.topLeftY) / 2
    timestamp := now }

/-- `Math.sqrt((curr.x-prev.x)^2 + (curr.y-prev.y)^2) > HEAD_MOVEMENT_THRESHOLD`,
stated on the squares (equivalent, as both sides are nonnegative). -/
def isSignificantMove (p q : HeadPosition) : Bool :=
  decide (HEAD_MOVEMENT_THRESHOLD ^ 2 < (q.x - p.x) ^ 2 + (q.y - p.y) ^ 2)

/-- The loop `for (let i = 1; i < recentHeadPositions.length; i++)` counting
consecutive pairs whose distance exceeds the threshold. -/
def significantMovements : List HeadPosition → ℕ
  | p :: q :: rest => (if isSignificantMove p q then 1 else 0) + significantMovements (q :: rest)
  | _ => 0

/-- `recentHeadPositions.length === 0 ||
(currentTime - recentHeadPositions[recentHeadPositions.length - 1].timestamp) > POSITION_TRACKING_INTERVAL` -/
def shouldRecord (w : List HeadPosition) (now : ℕ) : Bool :=
  match w.getLast? with
  | none => true
  | some last => decide (POSITION_TRACKING_INTERVAL < now - last.timestamp)

/-- The result `processVideoFrame` returns when the video element is null,
the model is not loaded, or detection threw. -/
def defaultDetectionResult : DetectionResult :=
  { faceCount := 0, facePresent := false, lookingAway := false, estimatedAttention := 0 }

/-- `processVideoFrame` from detectionUtils.ts.  `videoElement` is the
nullable DOM element, `modelLoaded` whether `faceDetectionModel` is non-null,
`detect` the outcome of the (external) BlazeFace calls, `now` is
`Date.now()`.  Returns the result together with the updated module state. -/
def processVideoFrame (videoElement : Option Unit) (modelLoaded : Bool)
    (detect : Except Unit (List Face)) (now : ℕ) (st : DetectionState) :
    DetectionResult × DetectionState :=
  if videoElement = none ∨ modelLoaded = false then
    (defaultDetectionResult, st)
  else
    match detect with
    | Except.error _ => (defaultDetectionResult, st)
    | Except.ok predictions =>
      match predictions with
      | [] =>
        (defaultDetectionResult,
         { st with framesSinceFaceDetected := st.framesSinceFaceDetected + 1 })
      | firstFace :: restFaces =>
        let st1 : DetectionState := { st with framesSinceFaceDetected := 0 }
        if shouldRecord st.recentHeadPositions now then
          let window :=
            pushBounded MAX_HEAD_POSITIONS st.recentHeadPositions (centroid firstFace now)
          let sm := significantMovements window
          let la : Bool :=
            if 1 < window.length then decide (FREQUENT_MOVEMENTS_THRESHOLD ≤ sm) else false
          let att : ℤ :=
            if 1 < window.length then
              (if 0 < sm then max 0 (100 - (sm : ℤ) * 20) else 100)
            else 100
          ({ faceCount := restFaces.length + 1, facePresent := true, lookingAway := la,
             estimatedAttention := att },
           { st1 with recentHeadPositions := window })
        else
          ({ faceCount := restFaces.length + 1, facePresent := true, lookingAway := false,
             estimatedAttention := 100 }, st1)

/-! ## Status aggregator (getDetectionStatus) and audio overlay -/

inductive Status where
  | safe
  | warning
  | danger
  deriving DecidableEq, Repr

structure StatusResult where
  status : Status
  message : String
  deriving DecidableEq, Repr

/-- `getDetectionStatus` from detectionUtils.ts; `framesSinceFaceDetected`
is the module-level counter made explicit. -/
def getDetectionStatus (facePresent : Bool) (faceCount : ℕ) (lookingAway : Bool)
    (framesSinceFaceDetected : ℕ) : StatusResult :=
  if facePresent = false ∧ FACE_DISAPPEARANCE_THRESHOLD ≤ framesSinceFaceDetected then
    { status := Status.danger, message := "No face detected in frame" }
  else if 1 < faceCount then
    { status := Status.danger,
      message := "Multiple faces detected (" ++ toString faceCount ++ ")" }
  else if lookingAway = true then
    { status := Status.warning, message := "Looking away from screen frequently" }
  else if facePresent = false ∧ 0 < framesSinceFaceDetected then
    { status := Status.warning, message := "Face temporarily not visible" }
  else
    { status := Status.safe, message := "Normal exam behavior" }

/-- The override in Index.tsx:
`if (audioEnabled && noiseDetected && status.status === 'safe') status = {...}`. -/
def applyAudioOverlay (audioEnabled noiseDetected : Bool) (s : StatusResult) : StatusResult :=
  if audioEnabled = true ∧ noiseDetected = true ∧ s.status = Status.safe then
    { status := Status.warning, message := "Suspicious audio detected" }
  else s

/-! ## Audio noise analyzer (audioUtils.ts) -/

/-- `initializeAudio`: `createContext` models `new AudioContext()` and
`getUserMedia` the microphone permission request; `Except.error` stands for a
thrown exception (caught by the function, which then returns `false`).  After
both succeed, `audioContext` and `audioStream` are non-null and the function
returns `true`. -/
def initializeAudio (createContext : Except Unit Unit) (getUserMedia : Except Unit Unit) : Bool :=
  match createContext with
  | Except.error _ => false
  | Except.ok _ =>
    match getUserMedia with
    | Except.error _ => false
    | Except.ok _ => true

/-- `processAudio` from audioUtils.ts.  `analyzerPresent` is whether the
module-level `analyzer` is non-null; `normalizedVolume` is the mean of the
frequency snapshot divided by 255 (its computation from the byte array is
outside the claims); `window` is `recentNoiseLevel`.  Returns the result and
the updated window.  The `reduce` accumulations are embedded as `foldl`. -/
def processAudio (analyzerPresent : Bool) (normalizedVolume : ℚ) (window : List ℚ) :
    AudioResult × List ℚ :=
  if analyzerPresent = false then
    ({ noiseDetected := false, noiseLevel := 0, volumeLevel := 0 }, window)
  else
    let w := pushBounded MAX_NOISE_SAMPLES window normalizedVolume
    if 5 < w.length then
      let mean := w.foldl (fun s v => s + v) 0 / (w.length : ℚ)
      let variance := w.foldl (fun s v => s + (v - mean) ^ 2) 0 / (w.length : ℚ)
      ({ noiseDetected := decide (NOISE_THRESHOLD < variance ∧ 1/10 < normalizedVolume),
         noiseLevel := variance, volumeLevel := normalizedVolume }, w)
    else
      ({ noiseDetected := false, noiseLevel := 0, volumeLevel := normalizedVolume }, w)

/-- The population variance in the words of the specification: the mean over
`n` of the squared deviations from the sample mean.  Used to compare the
code's accumulation against the specified quantity. -/
def specNoiseVariance (w : List ℚ) : ℚ :=
  (w.map (fun v => (v - w.sum / (w.length : ℚ)) ^ 2)).sum / (w.length : ℚ)

/-! ## Alert manager (Index.tsx) -/

structure Alert where
  id : String
  message : String
  type : Status
  timestamp : ℕ
  deriving DecidableEq, Repr

/-- The record prepended on emission; its id is the template literal
"alert-" followed by the decimal rendering of Date.now(). -/
def mkAlert (msg : String) (ty : Status) (now : ℕ) : Alert :=
  { id := "alert-" ++ toString now, message := msg, type := ty, timestamp := now }

/-- The deduplication test:
`!alerts.some(a => a.message === msg && now - a.timestamp < 10000)`. -/
def shouldAddAlert (log : List Alert) (msg : String) (now : ℕ) : Bool :=
  !(log.any fun a => decide (a.message = msg) && decide (now - a.timestamp < ALERT_COOLDOWN))

/-- One emission attempt: dedup test against the log, then prepend. -/
def emitAlert (log : List Alert) (msg : String) (ty : Status) (now : ℕ) : List Alert :=
  if shouldAddAlert log msg now then mkAlert msg ty now :: log else log

/-- `dismissAlert` from Index.tsx: `prev.filter(alert => alert.id !== id)`. -/
def dismissAlert (log : List Alert) (i : String) : List Alert :=
  log.filter fun a => decide (¬a.id = i)

/-- The alert-log updates of one `detectFrame` tick in Index.tsx.
`audioNoiseDetected` is the fresh `audioResults.noiseDetected`;
`stateNoiseDetected` is the React state variable `noiseDetected` read by the
status override (the state set on a previous render).  Both dedup tests read
the closure's `alerts` value (`log`); the two prepends are applied in order. -/
def alertsAfterTick (log : List Alert)
    (audioEnabled audioNoiseDetected stateNoiseDetected : Bool)
    (videoStatus : StatusResult) (now : ℕ) : List Alert :=
  let l1 :=
    if audioEnabled = true ∧ audioNoiseDetected = true
        ∧ shouldAddAlert log "Suspicious sounds detected" now = true then
      mkAlert "Suspicious sounds detected" Status.warning now :: log
    else log
  let status := applyAudioOverlay audioEnabled stateNoiseDetected videoStatus
  if (status.status = Status.danger ∨ status.status = Status.warning)
      ∧ shouldAddAlert log status.message now = true then
    mkAlert status.message status.status now :: l1
  else l1

/-! ## The engine as a transition system (for the window invariants) -/

/-- One externally driven tick: either a video tick (the `detectFrame` loop
calling `processVideoFrame`) or an audio tick (`processAudio`). -/
inductive EngineOp where
  | videoTick (videoElement : Option Unit) (modelLoaded : Bool)
      (detect : Except Unit (List Face)) (now : ℕ)
  | audioTick (analyzerPresent : Bool) (normalizedVolume : ℚ)

/-- The union of the two modules' sliding-window state. -/
structure EngineState where
  detection : DetectionState
  recentNoiseLevel : List ℚ
  deriving DecidableEq, Repr

def initEngineState : EngineState :=
  { detection := initDetectionState, recentNoiseLevel := [] }

def engineStep (st : EngineState) (op : EngineOp) : EngineState :=
  match op with
  | EngineOp.videoTick v m d now =>
    { st with detection := (processVideoFrame v m d now st.detection).2 }
  | EngineOp.audioTick a vol =>
    { st with recentNoiseLevel := (processAudio a vol st.recentNoiseLevel).2 }

/-- Any interleaving of video and audio ticks from the empty initial state. -/
def engineRun (ops : List EngineOp) : EngineState :=
  ops.foldl engineStep initEngineState

/-! ## Concrete detection runs used by several counterexamples -/

/-- A face whose stored centroid (per the source's `centerX`/`centerY`
formulas) is `(100*i, 50*i)`: `topLeft = (100*i, 0)`,
`bottomRight = (100*i, 77)`. -/
def faceAt (i : ℕ) : Face :=
  { topLeftX := 100 * i, topLeftY := 0, bottomRightX := 100 * i, bottomRightY := 77 }

/-- One demo video tick: single face `faceAt i` at time `400*i` ms. -/
def demoTick (st : DetectionState) (i : ℕ) : DetectionResult × DetectionState :=
  processVideoFrame (some ()) true (Except.ok [faceAt i]) (400 * i) st

/-- State after demo ticks `0, 1, ..., n-1`. -/
def demoState : ℕ → DetectionState
  | 0 => initDetectionState
  | n + 1 => (demoTick (demoState n) n).2

/-! ## Helper lemmas: sliding windows -/

lemma pushBounded_length_le {α : Type} (cap : ℕ) (w : List α) (x : α) (h : w.length ≤ cap) :
    (pushBounded cap w x).length ≤ cap := by
  unfold pushBounded
  split
  · simp only [List.length_tail, List.length_append, List.length_singleton]
    omega
  · next hle =>
    simp only [not_lt, List.length_append, List.length_singleton] at hle
    simpa using hle

lemma pushBounded_evict {α : Type} (cap : ℕ) (w : List α) (x : α) (h : w.length = cap)
    (hpos : 0 < cap) : pushBounded cap w x = w.tail ++ [x] := by
  have hw : w ≠ [] := by
    intro e
    subst e
    simp at h
    omega
  unfold pushBounded
  rw [if_pos (by simp [h]), List.tail_append_of_ne_nil hw]

lemma processVideoFrame_positions (v : Option Unit) (m : Bool) (d : Except Unit (List Face))
    (now : ℕ) (st : DetectionState) :
    ((processVideoFrame v m d now st).2).recentHeadPositions = st.recentHeadPositions
    ∨ ∃ p, ((processVideoFrame v m d now st).2).recentHeadPositions
        = pushBounded MAX_HEAD_POSITIONS st.recentHeadPositions p := by
  unfold processVideoFrame
  split
  · exact Or.inl rfl
  · split
    · exact Or.inl rfl
    · split
      · exact Or.inl rfl
      · split
        · exact Or.inr ⟨_, rfl⟩
        · exact Or.inl rfl

lemma processAudio_window (a : Bool) (vol : ℚ) (w : List ℚ) :
    (processAudio a vol w).2 = w
    ∨ (processAudio a vol w).2 = pushBounded MAX_NOISE_SAMPLES w vol := by
  cases a with
  | false => exact Or.inl (by simp [processAudio])
  | true =>
    right
    by_cases h5 : 5 < (pushBounded MAX_NOISE_SAMPLES w vol).length
    · simp [processAudio, h5]
    · simp [processAudio, h5]

lemma engineStep_preserves (st : EngineState) (op : EngineOp)
    (h1 : st.detection.recentHeadPositions.length ≤ MAX_HEAD_POSITIONS)
    (h2 : st.recentNoiseLevel.length ≤ MAX_NOISE_SAMPLES) :
    (engineStep st op).detection.recentHeadPositions.length ≤ MAX_HEAD_POSITIONS
    ∧ (engineStep st op).recentNoiseLevel.length ≤ MAX_NOISE_SAMPLES := by
  cases op with
  | videoTick v m d now =>
    refine ⟨?_, by simpa [engineStep] using h2⟩
    show ((processVideoFrame v m d now st.detection).2).recentHeadPositions.length
      ≤ MAX_HEAD_POSITIONS
    rcases processVideoFrame_positions v m d now st.detection with h | ⟨p, h⟩
    · rw [h]; exact h1
    · rw [h]; exact pushBounded_length_le _ _ _ h1
  | audioTick a vol =>
    refine ⟨by simpa [engineStep] using h1, ?_⟩
    show ((processAudio a vol st.recentNoiseLevel).2).length ≤ MAX_NOISE_SAMPLES
    rcases processAudio_window a vol st.recentNoiseLevel with h | h
    · rw [h]; exact h2
    · rw [h]; exact pushBounded_length_le _ _ _ h2

lemma engineFoldl_invariant (ops : List EngineOp) :
    ∀ (st : EngineState), st.detection.recentHeadPositions.length ≤ MAX_HEAD_POSITIONS →
      st.recentNoiseLevel.length ≤ MAX_NOISE_SAMPLES →
      (ops.foldl engineStep st).detection.recentHeadPositions.length ≤ MAX_HEAD_POSITIONS
      ∧ (ops.foldl engineStep st).recentNoiseLevel.length ≤ MAX_NOISE_SAMPLES := by
  induction ops with
  | nil => exact fun st h1 h2 => ⟨h1, h2⟩
  | cons op rest ih =>
    intro st h1 h2
    have h := engineStep_preserves st op h1 h2
    exact ih _ h.1 h.2

/-! ## Helper lemmas: attention score bounds -/

lemma attention_nonneg (k : ℕ) : (0 : ℤ) ≤ max 0 (100 - (k : ℤ) * 20) :=
  le_max_left 0 _

lemma attention_le_100 (k : ℕ) : max 0 (100 - (k : ℤ) * 20) ≤ 100 := by
  refine max_le (by norm_num) ?_
  have h : (0 : ℤ) ≤ (k : ℤ) * 20 := by positivity
  omega

/-! ## Helper lemmas: foldl accumulations as sums -/

lemma foldl_add_eq_sum (w : List ℚ) : w.foldl (fun s v => s + v) 0 = w.sum := by
  rw [List.sum_eq_foldl]

lemma foldl_add_map_eq_sum (f : ℚ → ℚ) (w : List ℚ) :
    w.foldl (fun s v => s + f v) 0 = (w.map f).sum := by
  rw [List.sum_eq_foldl, List.foldl_map]

/-! ## Helper lemmas: decimal rendering of naturals is injective

`mkAlert` builds ids from `toString (now : ℕ) = Nat.repr now`; distinctness of
ids for distinct timestamps reduces to injectivity of `Nat.repr`. -/

lemma toDigitsCore_append (b : ℕ) :
    ∀ (f n : ℕ) (ds : List Char),
      Nat.toDigitsCore b f n ds = Nat.toDigitsCore b f n [] ++ ds := by
  intro f
  induction f with
  | zero => intro n ds; simp [Nat.toDigitsCore]
  | succ f ih =>
    intro n ds
    simp only [Nat.toDigitsCore]
    split
    · simp
    · rw [ih (n / b) (Nat.digitChar (n % b) :: ds), ih (n / b) [Nat.digitChar (n % b)]]
      simp

lemma toDigitsCore_fuel (b : ℕ) (hb : 2 ≤ b) :
    ∀ (n f g : ℕ), n < f → n < g → ∀ (ds : List Char),
      Nat.toDigitsCore b f n ds = Nat.toDigitsCore b g n ds := by
  intro n
  induction n using Nat.strong_induction_on with
  | _ n ih =>
    intro f g hf hg ds
    cases f with
    | zero => omega
    | succ f =>
      cases g with
      | zero => omega
      | succ g =>
        simp only [Nat.toDigitsCore]
        split
        · rfl
        · next h0 =>
          have hn : 0 < n := by
            rcases Nat.eq_zero_or_pos n with rfl | hn
            · simp [Nat.zero_div] at h0
            · exact hn
          have hdiv : n / b < n := Nat.div_lt_self hn (by omega)
          exact ih (n / b) hdiv (f := f) (g := g) (by omega) (by omega) _

lemma toDigits_lt10 (n : ℕ) (h : n < 10) : Nat.toDigits 10 n = [Nat.digitChar n] := by
  simp [Nat.toDigits, Nat.toDigitsCore, Nat.div_eq_of_lt h, Nat.mod_eq_of_lt h]

lemma toDigits_ge10 (n : ℕ) (h : 10 ≤ n) :
    Nat.toDigits 10 n = Nat.toDigits 10 (n / 10) ++ [Nat.digitChar (n % 10)] := by
  have h0 : ¬n / 10 = 0 := by
    have := Nat.div_pos h (by norm_num)
    omega
  have hn : 0 < n := by omega
  show Nat.toDigitsCore 10 (n + 1) n [] = _
  simp only [Nat.toDigitsCore]
  rw [if_neg h0, toDigitsCore_append 10 n (n / 10) [Nat.digitChar (n % 10)]]
  congr 1
  exact toDigitsCore_fuel 10 (by norm_num) (n / 10)
    n (n / 10 + 1) (Nat.div_lt_self hn (by norm_num)) (Nat.lt_succ_self _) []

lemma toDigits_ne_nil (n : ℕ) : Nat.toDigits 10 n ≠ [] := by
  rcases Nat.lt_or_ge n 10 with h | h
  · simp [toDigits_lt10 n h]
  · simp [toDigits_ge10 n h]

lemma digitChar_inj_lt10 : ∀ m < 10, ∀ n < 10, Nat.digitChar m = Nat.digitChar n → m = n := by
  decide

lemma toDigits10_inj : ∀ (m n : ℕ), Nat.toDigits 10 m = Nat.toDigits 10 n → m = n := by
  intro m
  induction m using Nat.strong_induction_on with
  | _ m ih =>
    intro n h
    rcases Nat.lt_or_ge m 10 with hm | hm <;> rcases Nat.lt_or_ge n 10 with hn | hn
    · rw [toDigits_lt10 m hm, toDigits_lt10 n hn] at h
      exact digitChar_inj_lt10 m hm n hn (by simpa using h)
    · rw [toDigits_lt10 m hm, toDigits_ge10 n hn] at h
      have hlen := congrArg List.length h
      simp at hlen
      exact absurd hlen.symm.symm (toDigits_ne_nil _)
    · rw [toDigits_ge10 m hm, toDigits_lt10 n hn] at h
      have hlen := congrArg List.length h
      simp at hlen
      exact absurd hlen (toDigits_ne_nil _)
    · rw [toDigits_ge10 m hm, toDigits_ge10 n hn] at h
      obtain ⟨h1, h2⟩ := List.append_inj' h (by simp)
      have hd : m / 10 = n / 10 :=
        ih (m / 10) (Nat.div_lt_self (by omega) (by norm_num)) (n / 10) h1
      have hm2 : m % 10 = n % 10 :=
        digitChar_inj_lt10 _ (Nat.mod_lt _ (by norm_num)) _ (Nat.mod_lt _ (by norm_num))
          (by simpa using h2)
      omega

lemma natRepr_inj (m n : ℕ) (h : Nat.repr m = Nat.repr n) : m = n := by
  apply toDigits10_inj
  have hd := congrArg String.data h
  simpa [Nat.repr, List.asString] using hd

/-! ## Claim C1 -/

/-- Claim C1, counterexample.  An alert for message M is emitted at t0 = 0,
dismissed (removed by its id) at t1 = 2000 < t0 + 10000, and M is
re-triggered at t2 = 5000 with t1 < t2 < t0 + 10000.  Contrary to the claim,
a NEW alert with message M and timestamp 5000 is added to the log before the
original 10-second cooldown expires. -/
theorem C1_dismiss_ends_suppression :
    emitAlert (dismissAlert (emitAlert [] "Face temporarily not visible" Status.warning 0)
        "alert-0")
      "Face temporarily not visible" Status.warning 5000
      = [mkAlert "Face temporarily not visible" Status.warning 5000]
    ∧ (2000 : ℕ) < 0 + ALERT_COOLDOWN ∧ (2000 : ℕ) < 5000
    ∧ (5000 : ℕ) < 0 + ALERT_COOLDOWN := by
  decide

/-- Claim C1, amended.  Dismissal removes the alert from the log and the
cooldown test consults only alerts currently in the log, so after dismissing
the only alert carrying message M, a re-trigger of M at any later time — in
particular inside the original 10-second window — is emitted, not
suppressed. -/
theorem C1_amended : ∀ (msg : String) (ty1 ty2 : Status) (t0 t2 : ℕ),
    emitAlert (dismissAlert (emitAlert [] msg ty1 t0) ("alert-" ++ toString t0)) msg ty2 t2
      = [mkAlert msg ty2 t2] := by
  intro msg ty1 ty2 t0 t2
  simp [emitAlert, shouldAddAlert, mkAlert, dismissAlert]

/-! ## Claim C2 -/

/-- Claim C2.  The status aggregator applies its rules in strict precedence
order: persistent face absence (threshold 3) gives danger; otherwise multiple
faces gives danger; otherwise lookingAway gives warning; otherwise transient
absence (1–2 missed ticks) gives warning; otherwise safe.  The audio overlay
maps a safe result to warning and leaves any non-safe result unchanged (it
never produces danger from a non-danger result).  In particular any input
satisfying both the absence-danger rule and the lookingAway rule resolves to
danger, also after the overlay. -/
theorem C2_status_precedence :
    (∀ (fc : ℕ) (la : Bool) (fr : ℕ), FACE_DISAPPEARANCE_THRESHOLD ≤ fr →
        getDetectionStatus false fc la fr
          = { status := Status.danger, message := "No face detected in frame" })
    ∧ (∀ (fp : Bool) (fc : ℕ) (la : Bool) (fr : ℕ),
        (fp = true ∨ fr < FACE_DISAPPEARANCE_THRESHOLD) → 1 < fc →
        getDetectionStatus fp fc la fr
          = { status := Status.danger,
              message := "Multiple faces detected (" ++ toString fc ++ ")" })
    ∧ (∀ (fp : Bool) (fc : ℕ) (fr : ℕ),
        (fp = true ∨ fr < FACE_DISAPPEARANCE_THRESHOLD) → fc ≤ 1 →
        getDetectionStatus fp fc true fr
          = { status := Status.warning, message := "Looking away from screen frequently" })
    ∧ (∀ (fc : ℕ) (fr : ℕ), 0 < fr → fr < FACE_DISAPPEARANCE_THRESHOLD → fc ≤ 1 →
        getDetectionStatus false fc false fr
          = { status := Status.warning, message := "Face temporarily not visible" })
    ∧ (∀ (fp : Bool) (fc : ℕ) (fr : ℕ), (fp = true ∨ fr = 0) → fc ≤ 1 →
        getDetectionStatus fp fc false fr
          = { status := Status.safe, message := "Normal exam behavior" })
    ∧ (∀ (ae nd : Bool) (s : StatusResult),
        applyAudioOverlay ae nd s = s
        ∨ (s.status = Status.safe
            ∧ applyAudioOverlay ae nd s
                = { status := Status.warning, message := "Suspicious audio detected" }))
    ∧ (∀ (ae nd : Bool) (s : StatusResult), ¬s.status = Status.safe →
        applyAudioOverlay ae nd s = s)
    ∧ (∀ (fc : ℕ) (fr : ℕ) (ae nd : Bool), FACE_DISAPPEARANCE_THRESHOLD ≤ fr →
        (applyAudioOverlay ae nd (getDetectionStatus false fc true fr)).status
          = Status.danger) := by
  refine ⟨?_, ?_, ?_, ?_, ?_, ?_, ?_, ?_⟩
  · intro fc la fr h
    simp [getDetectionStatus, h]
  · intro fp fc la fr h hfc
    rcases h with h | h
    · simp [getDetectionStatus, h, hfc]
    · simp [getDetectionStatus, hfc, Nat.not_le.mpr h]
  · intro fp fc fr h hfc
    have hfc1 : ¬1 < fc := Nat.not_lt.mpr hfc
    rcases h with h | h
    · simp [getDetectionStatus, h, hfc1]
    · simp [getDetectionStatus, hfc1, Nat.not_le.mpr h]
  · intro fc fr h0 h3 hfc
    simp [getDetectionStatus, Nat.not_le.mpr h3, Nat.not_lt.mpr hfc, h0]
  · intro fp fc fr h hfc
    have hfc1 : ¬1 < fc := Nat.not_lt.mpr hfc
    rcases h with h | h
    · simp [getDetectionStatus, h, hfc1]
    · simp [getDetectionStatus, hfc1, h, FACE_DISAPPEARANCE_THRESHOLD]
  · intro ae nd s
    by_cases h : ae = true ∧ nd = true ∧ s.status = Status.safe
    · right
      refine ⟨h.2.2, ?_⟩
      simp [applyAudioOverlay, h]
    · left
      simp [applyAudioOverlay, h]
  · intro ae nd s h
    simp [applyAudioOverlay, h]
  · intro fc fr ae nd h
    simp [getDetectionStatus, applyAudioOverlay, h]

/-- Claim C2, witness: a tick with a persistently absent face (3 missed
ticks) and lookingAway still resolves to danger after the audio overlay. -/
theorem C2_witness :
    (applyAudioOverlay true true (getDetectionStatus false 0 true 3)).status = Status.danger :=
  C2_status_precedence.2.2.2.2.2.2.2 0 3 true true (by decide)

/-! ## Claim C3 -/

/-- Claim C3.  For the face with topLeft = (0, 0) and bottomRight = (100, 50)
the stored centroid has y = 50 (the code computes
topLeft.y + (bottomRight.x - topLeft.y)/2, mixing the x-axis into the y
computation), whereas the midpoint of the box's own top/bottom y-extents is
topLeft.y + (bottomRight.y - topLeft.y)/2 = 25. -/
theorem C3_centroid_mixes_axes :
    ((processVideoFrame (some ()) true (Except.ok [Face.mk 0 0 100 50]) 0
        initDetectionState).2).recentHeadPositions
      = [{ x := 50, y := 50, timestamp := 0 }]
    ∧ (0 : ℚ) + (50 - 0) / 2 = 25 ∧ (50 : ℚ) ≠ 25 := by
  refine ⟨?_, by norm_num, by norm_num⟩
  norm_num [processVideoFrame, initDetectionState, shouldRecord, centroid, pushBounded,
    MAX_HEAD_POSITIONS, Option.some_ne_none]

/-! ## Claim C4 -/

/-- Claim C4, counterexample.  After six recorded samples each a significant
movement apart, the tick reports facePresent = true with
estimatedAttention = 0 (five significant movements, 100 - 5*20 = 0) — so the
attention score is NOT strictly positive whenever a face is present, and
"0 iff no face present" fails. -/
theorem C4_attention_zero_with_face :
    (demoTick (demoState 5) 5).1.facePresent = true
    ∧ (demoTick (demoState 5) 5).1.estimatedAttention = 0 := by
  norm_num [demoState, demoTick, processVideoFrame, initDetectionState, shouldRecord,
    centroid, pushBounded, faceAt, Option.some_ne_none, significantMovements,
    isSignificantMove, List.getLast?, MAX_HEAD_POSITIONS, POSITION_TRACKING_INTERVAL,
    HEAD_MOVEMENT_THRESHOLD, FREQUENT_MOVEMENTS_THRESHOLD]

/-- Claim C4, amended.  For every tick the returned estimatedAttention lies
in [0, 100], and it is 0 whenever facePresent is false; with a face present
the score can nevertheless also be 0 (when at least five significant
movements are counted), so 0 does not characterise face absence. -/
theorem C4_attention_bounds : ∀ (v : Option Unit) (m : Bool) (d : Except Unit (List Face))
    (now : ℕ) (st : DetectionState),
    0 ≤ ((processVideoFrame v m d now st).1).estimatedAttention
    ∧ ((processVideoFrame v m d now st).1).estimatedAttention ≤ 100
    ∧ (((processVideoFrame v m d now st).1).facePresent = false →
        ((processVideoFrame v m d now st).1).estimatedAttention = 0) := by
  intro v m d now st
  unfold processVideoFrame
  split
  · simp [defaultDetectionResult]
  · split
    · simp [defaultDetectionResult]
    · split
      · simp [defaultDetectionResult]
      · split
        · refine ⟨?_, ?_, by simp⟩
          · dsimp only
            split
            · split
              · exact attention_nonneg _
              · norm_num
            · norm_num
          · dsimp only
            split
            · split
              · exact attention_le_100 _
              · norm_num
            · norm_num
        · simp

/-- Claim C4, witness: on a tick with no detection result the returned
attention is 0. -/
theorem C4_witness :
    (processVideoFrame none true (Except.ok []) 0 initDetectionState).1.estimatedAttention
      = 0 :=
  (C4_attention_bounds none true (Except.ok []) 0 initDetectionState).2.2 (by decide)

/-! ## Claim C5 -/

/-- Claim C5.  If the updated noise window holds at most 5 samples,
processAudio reports noiseDetected = false and noiseLevel = 0; once it holds
more than 5 samples, noiseLevel equals the population variance of the window
(mean over n of squared deviations from the sample mean) and noiseDetected
holds exactly when that variance exceeds 0.2 and the current normalized
volume exceeds 0.1.  A 6-sample window of identical values 0.05 yields
variance 0 and noiseDetected = false. -/
theorem C5_processAudio :
    (∀ (vol : ℚ) (window : List ℚ),
        ((processAudio true vol window).2.length ≤ 5 →
          (processAudio true vol window).1.noiseDetected = false
          ∧ (processAudio true vol window).1.noiseLevel = 0)
        ∧ (5 < (processAudio true vol window).2.length →
            (processAudio true vol window).1.noiseLevel
              = specNoiseVariance ((processAudio true vol window).2)
            ∧ ((processAudio true vol window).1.noiseDetected = true ↔
                NOISE_THRESHOLD < specNoiseVariance ((processAudio true vol window).2)
                ∧ 1/10 < vol)))
    ∧ (processAudio true (1/20) [1/20, 1/20, 1/20, 1/20, 1/20]).1.noiseLevel = 0
    ∧ (processAudio true (1/20) [1/20, 1/20, 1/20, 1/20, 1/20]).1.noiseDetected = false := by
  refine ⟨?_, ?_, ?_⟩
  · intro vol window
    by_cases h5 : 5 < (pushBounded MAX_NOISE_SAMPLES window vol).length
    · have hwin : (processAudio true vol window).2
          = pushBounded MAX_NOISE_SAMPLES window vol := by
        simp [processAudio, h5]
      constructor
      · intro hle
        rw [hwin] at hle
        omega
      · intro _
        rw [hwin]
        constructor
        · simp [processAudio, h5, specNoiseVariance, foldl_add_eq_sum, foldl_add_map_eq_sum]
        · simp [processAudio, h5, specNoiseVariance, foldl_add_eq_sum, foldl_add_map_eq_sum]
    · have hwin : (processAudio true vol window).2
          = pushBounded MAX_NOISE_SAMPLES window vol := by
        simp [processAudio, h5]
      constructor
      · intro _
        simp [processAudio, h5]
      · intro hgt
        rw [hwin] at hgt
        omega
  · norm_num [processAudio, pushBounded, MAX_NOISE_SAMPLES, NOISE_THRESHOLD]
  · norm_num [processAudio, pushBounded, MAX_NOISE_SAMPLES, NOISE_THRESHOLD]

/-- Claim C5, witness: with an empty prior window (1 updated sample) nothing
is detected, and with a full 6-sample window the reported noiseLevel is the
specified population variance. -/
theorem C5_witness :
    ((processAudio true (1/20) []).1.noiseDetected = false
      ∧ (processAudio true (1/20) []).1.noiseLevel = 0)
    ∧ (processAudio true (2/5) [0, 1, 0, 1, 0]).1.noiseLevel
        = specNoiseVariance ((processAudio true (2/5) [0, 1, 0, 1, 0]).2) :=
  ⟨(C5_processAudio.1 (1/20) []).1
      (by norm_num [processAudio, pushBounded, MAX_NOISE_SAMPLES]),
   ((C5_processAudio.1 (2/5) [0, 1, 0, 1, 0]).2
      (by norm_num [processAudio, pushBounded, MAX_NOISE_SAMPLES, NOISE_THRESHOLD])).1⟩

/-! ## Claim C6 -/

/-- Claim C6.  After every interleaving of video and audio ticks from the
empty initial state, the head-position window holds at most 15 entries and
the noise window at most 20; and whenever an append happens with the window
at capacity, the oldest (head) entry is evicted: the new window is the old
window's tail followed by the new sample (FIFO eviction). -/
theorem C6_window_bounds :
    (∀ (ops : List EngineOp),
        (engineRun ops).detection.recentHeadPositions.length ≤ MAX_HEAD_POSITIONS
        ∧ (engineRun ops).recentNoiseLevel.length ≤ MAX_NOISE_SAMPLES)
    ∧ (∀ (w : List HeadPosition) (p : HeadPosition), w.length = MAX_HEAD_POSITIONS →
        pushBounded MAX_HEAD_POSITIONS w p = w.tail ++ [p])
    ∧ (∀ (w : List ℚ) (v : ℚ), w.length = MAX_NOISE_SAMPLES →
        pushBounded MAX_NOISE_SAMPLES w v = w.tail ++ [v]) :=
  ⟨fun ops => engineFoldl_invariant ops initEngineState
      (by simp [initEngineState, initDetectionState]) (by simp [initEngineState]),
   fun w p h => pushBounded_evict _ w p h (by norm_num [MAX_HEAD_POSITIONS]),
   fun w v h => pushBounded_evict _ w v h (by norm_num [MAX_NOISE_SAMPLES])⟩

/-- Claim C6, witness: FIFO eviction at capacity on both windows, at concrete
full windows. -/
theorem C6_witness :
    pushBounded MAX_HEAD_POSITIONS
        (List.replicate 15 ({ x := 0, y := 0, timestamp := 0 } : HeadPosition))
        { x := 1, y := 1, timestamp := 1 }
      = (List.replicate 15 ({ x := 0, y := 0, timestamp := 0 } : HeadPosition)).tail
          ++ [{ x := 1, y := 1, timestamp := 1 }]
    ∧ pushBounded MAX_NOISE_SAMPLES (List.replicate 20 (0 : ℚ)) 1
      = (List.replicate 20 (0 : ℚ)).tail ++ [1] :=
  ⟨C6_window_bounds.2.1 _ _ (by simp [MAX_HEAD_POSITIONS]),
   C6_window_bounds.2.2 _ _ (by simp [MAX_NOISE_SAMPLES])⟩

/-! ## Claim C7 -/

/-- Claim C7, counterexample.  On the tick at t = 1200 a sample is recorded
and the result is lookingAway = true with estimatedAttention = 40; on the
next tick at t = 1300 (within the 300 ms debounce, face still present) the
result is lookingAway = false and estimatedAttention = 100 — the fixed
initialization defaults, NOT the values from the last sampled tick. -/
theorem C7_debounced_tick_resets :
    (demoTick (demoState 3) 3).1.lookingAway = true
    ∧ (demoTick (demoState 3) 3).1.estimatedAttention = 40
    ∧ (processVideoFrame (some ()) true (Except.ok [faceAt 3]) 1300
        (demoState 4)).1.lookingAway = false
    ∧ (processVideoFrame (some ()) true (Except.ok [faceAt 3]) 1300
        (demoState 4)).1.estimatedAttention = 100
    ∧ (1300 : ℕ) - 1200 ≤ POSITION_TRACKING_INTERVAL := by
  norm_num [demoState, demoTick, processVideoFrame, initDetectionState, shouldRecord,
    centroid, pushBounded, faceAt, Option.some_ne_none, significantMovements,
    isSignificantMove, List.getLast?, MAX_HEAD_POSITIONS, POSITION_TRACKING_INTERVAL,
    HEAD_MOVEMENT_THRESHOLD, FREQUENT_MOVEMENTS_THRESHOLD]

/-- Claim C7, amended.  On every tick where a face is present but the 300 ms
debounce suppresses recording, the result carries the initialization defaults
lookingAway = false and estimatedAttention = 100 (and the position window is
unchanged, the absence counter reset), regardless of the values computed on
the last sampled tick. -/
theorem C7_amended : ∀ (f : Face) (rest : List Face) (now : ℕ) (st : DetectionState),
    shouldRecord st.recentHeadPositions now = false →
    processVideoFrame (some ()) true (Except.ok (f :: rest)) now st
      = ({ faceCount := rest.length + 1, facePresent := true, lookingAway := false,
           estimatedAttention := 100 },
         { recentHeadPositions := st.recentHeadPositions, framesSinceFaceDetected := 0 }) := by
  intro f rest now st h
  simp [processVideoFrame, h]

/-- Claim C7, witness: a debounced tick (same millisecond as the last sample)
returns the defaults. -/
theorem C7_witness :
    shouldRecord ([{ x := 0, y := 0, timestamp := 0 }] : List HeadPosition) 0 = false
    ∧ processVideoFrame (some ()) true (Except.ok [faceAt 0]) 0
        { recentHeadPositions := [{ x := 0, y := 0, timestamp := 0 }],
          framesSinceFaceDetected := 5 }
      = ({ faceCount := 1, facePresent := true, lookingAway := false,
           estimatedAttention := 100 },
         { recentHeadPositions := [{ x := 0, y := 0, timestamp := 0 }],
           framesSinceFaceDetected := 0 }) :=
  ⟨by decide, C7_amended (faceAt 0) [] 0 _ (by decide)⟩

/-! ## Claim C8 -/

/-- Claim C8.  processVideoFrame returns the zero default (faceCount 0,
facePresent false, lookingAway false, estimatedAttention 0) with the state
untouched when the video element is null, when the model is not loaded, and
when detection throws internally; and initializeAudio returns false (rather
than propagating) when creating the audio context or requesting the
microphone throws. -/
theorem C8_safe_defaults :
    (∀ (m : Bool) (d : Except Unit (List Face)) (now : ℕ) (st : DetectionState),
        processVideoFrame none m d now st = (defaultDetectionResult, st))
    ∧ (∀ (v : Option Unit) (d : Except Unit (List Face)) (now : ℕ) (st : DetectionState),
        processVideoFrame v false d now st = (defaultDetectionResult, st))
    ∧ (∀ (v : Option Unit) (m : Bool) (e : Unit) (now : ℕ) (st : DetectionState),
        processVideoFrame v m (Except.error e) now st = (defaultDetectionResult, st))
    ∧ (∀ (gm : Except Unit Unit), initializeAudio (Except.error ()) gm = false)
    ∧ (∀ (cc : Except Unit Unit), initializeAudio cc (Except.error ()) = false) := by
  refine ⟨?_, ?_, ?_, ?_, ?_⟩
  · intro m d now st
    simp [processVideoFrame]
  · intro v d now st
    simp [processVideoFrame]
  · intro v m e now st
    unfold processVideoFrame
    split
    · rfl
    · rfl
  · intro gm
    rfl
  · intro cc
    cases cc with
    | error e => rfl
    | ok a => rfl

/-! ## Claim C9 -/

/-- Claim C9, counterexample.  A single tick with suspicious audio and a safe
video status emits two alerts in the same millisecond (timestamp 5000); both
receive the id "alert-5000", so the ids in the log are NOT pairwise
distinct. -/
theorem C9_duplicate_ids_same_tick :
    (alertsAfterTick [] true true true
        { status := Status.safe, message := "Normal exam behavior" } 5000).map Alert.id
      = ["alert-5000", "alert-5000"]
    ∧ (alertsAfterTick [] true true true
        { status := Status.safe, message := "Normal exam behavior" } 5000).map Alert.message
      = ["Suspicious audio detected", "Suspicious sounds detected"] := by
  decide

/-- Claim C9, amended.  An alert's id is "alert-" followed by the decimal
emission timestamp, so alerts emitted at distinct milliseconds have distinct
ids; only alerts emitted in the same millisecond (as in the counterexample)
share an id. -/
theorem C9_amended : ∀ (t1 t2 : ℕ), t1 ≠ t2 → ∀ (m1 m2 : String) (ty1 ty2 : Status),
    (mkAlert m1 ty1 t1).id ≠ (mkAlert m2 ty2 t2).id := by
  intro t1 t2 hne m1 m2 ty1 ty2 h
  apply hne
  apply natRepr_inj
  have hd := congrArg String.data h
  simp only [mkAlert, String.data_append] at hd
  exact String.ext (List.append_cancel_left hd)

/-- Claim C9, witness: alerts emitted one millisecond apart get distinct
ids. -/
theorem C9_witness :
    (mkAlert "Suspicious sounds detected" Status.warning 1000).id
      ≠ (mkAlert "Suspicious audio detected" Status.warning 1001).id :=
  C9_amended 1000 1001 (by decide) "Suspicious sounds detected"
    "Suspicious audio detected" Status.warning Status.warning

/-! ## Claim C10 -/

/-- Claim C10.  A single tick on which suspicious audio is detected (fresh
audio result and state flag both set, video status safe) adds two distinct
alert entries in the same millisecond: the status-override path's
"Suspicious audio detected" and the audio-event path's
"Suspicious sounds detected".  The dedup key is the exact message string and
the two messages differ, so neither suppresses the other. -/
theorem C10_two_alerts_same_tick :
    (alertsAfterTick [] true true true
        { status := Status.safe, message := "Normal exam behavior" } 1234).map
          (fun a => (a.message, a.timestamp))
      = [("Suspicious audio detected", 1234), ("Suspicious sounds detected", 1234)]
    ∧ "Suspicious audio detected" ≠ "Suspicious sounds detected" := by
  decide
